import Mathlib

/-!
Verification of the NNPOM ordinal-regression classifier
(`src/classifiers/NNPOM.py` of the orca-python repository).

The Python code is embedded shallowly: numpy matrices become
`List (List ℚ)` (exact rational arithmetic stands in for floating point),
the transcendental functions `exp`/`log` are passed as explicit function
parameters (none of the structural claims depend on their values), and
fallible Python operations return `Except PyErr`.
-/

/-- Python exception kinds raised by the operations modelled below. -/
inductive PyErr where
  | typeError
  | valueError
  | axisError
deriving DecidableEq

deriving instance DecidableEq for Except

/-- A numpy 2-d array: list of rows. -/
abbrev Mat := List (List ℚ)

/-- Entry `M[i][j]`, with 0 outside the matrix (all uses are in range). -/
def entry (M : Mat) (i j : ℕ) : ℚ :=
  (M.getD i []).getD j 0

/-- Dot product of two equal-length vectors. -/
def dot (xs ys : List ℚ) : ℚ :=
  (List.zipWith (· * ·) xs ys).sum

/-- Matrix product `A · Bᵀ` (`np.matmul(A, B.T)`): entry `(i, h)` is the dot
product of row `i` of `A` with row `h` of `B`. -/
def mulT (A B : Mat) : Mat :=
  A.map (fun ar => B.map (fun br => dot ar br))

/-- The logistic squashing `1 / (1 + exp(-z))` used at lines 199, 203, 608
and 611 of `NNPOM.py`, with `exp` passed explicitly. -/
def sigmoid (exp : ℚ → ℚ) (z : ℚ) : ℚ :=
  1 / (1 + exp (-z))

/-- Number of columns of a matrix (length of its first row). -/
def numCols (M : Mat) : ℕ :=
  (M.headD []).length

/-- Column-major flattening, `ndarray.flatten(order='F')`: column `j` is read
top to bottom, columns left to right. -/
def flattenF (M : Mat) : List ℚ :=
  ((List.range (numCols M)).map (fun j => M.map (fun row => row.getD j 0))).flatten

/-- Row-major reshape, `np.reshape(xs, (r, c))` with the default C order:
row `i` of the result is `xs[i*c .. i*c+c-1]`.  Defined for the well-shaped
case `xs.length = r * c` (every call below satisfies it; `np.reshape` raises
on a size mismatch). -/
def reshapeC (xs : List ℚ) (r c : ℕ) : Mat :=
  (List.range r).map (fun i => (List.range c).map (fun j => xs.getD (i * c + j) 0))

/-- Parameter packing as `fit` does at lines 127–129 of `NNPOM.py`:
each tensor is flattened in column-major order, `Theta1` first, then
`Theta2`, then the raw threshold parameters, and the pieces concatenated. -/
def packParameters (Theta1 Theta2 thresholds : Mat) : List ℚ :=
  flattenF Theta1 ++ flattenF Theta2 ++ flattenF thresholds

/-- The private method `__unpackParameters` (lines 470–481): slices the flat
vector back into `Theta1` (`hidden × (input+1)`), `Theta2` (`1 × hidden`) and
`thresholds_param` (`(num_labels-1) × 1`) using `np.reshape` with its default
row-major order. -/
def unpackParameters (nn_params : List ℚ) (input_layer_size hidden_layer_size num_labels : ℕ) :
    Mat × Mat × Mat :=
  let nTheta1 := hidden_layer_size * (input_layer_size + 1)
  let Theta1 := reshapeC (nn_params.take nTheta1) hidden_layer_size (input_layer_size + 1)
  let Theta2 := reshapeC ((nn_params.drop nTheta1).take hidden_layer_size) 1 hidden_layer_size
  let thresholds_param := reshapeC (nn_params.drop (nTheta1 + hidden_layer_size)) (num_labels - 1) 1
  (Theta1, Theta2, thresholds_param)

/-- The private method `__randInitializeWeights` (lines 486–510): the random
draw (line 508) is commented out in the source, so the method returns
`np.ones((L_out, L_in))` — a matrix of ones. -/
def randInitializeWeights (L_in L_out : ℕ) : Mat :=
  List.replicate L_out (List.replicate L_in (1 : ℚ))

/-- The default of the `epsilonInit` hyperparameter in `__init__` (line 68). -/
def defaultEpsilonInit : ℚ := 1 / 2

/-- The private method `__convertThresholds` (lines 514–548): squares every
raw parameter but the first, tiles the resulting column across `K-1` columns,
transposes, masks with `np.tril(np.ones(...))` and sums each row, returning a
`1 × (K-1)` row matrix of thresholds. -/
def convertThresholds (thresholds_param : Mat) (num_labels : ℕ) : Mat :=
  let v : ℕ → ℚ := fun j =>
    if j = 0 then entry thresholds_param 0 0 else (entry thresholds_param j 0) ^ 2
  [(List.range (num_labels - 1)).map (fun i =>
    ((List.range (num_labels - 1)).map (fun j => (if j ≤ i then (1 : ℚ) else 0) * v j)).sum)]

/-- First-differencing along the class axis: row `[r0, r1, ..., rk]` becomes
`[r0, r1 - r0, ..., rk - r(k-1)]`.  This is line 613 of `NNPOM.py`
(`np.concatenate((a3[:,0:1], a3[:,1:] - a3[:,0:-1]), axis=1)`) and equally the
in-place update `a3[:,1:] = a3[:,1:] - a3[:,0:-1]` at line 205 (numpy fully
evaluates the right-hand side before assigning). -/
def firstDiffRow (row : List ℚ) : List ℚ :=
  row.headD 0 :: List.zipWith (fun b a => b - a) row.tail row

/-- The forward pass shared by `predict` (lines 197–205) and
`__nnPOMCostFunction` (lines 606–613): augment `X` with a leading bias column
of ones, squash the hidden layer, project with `Theta2`, form the cumulative
sigmoid matrix against the thresholds, append a column of ones and
first-difference.  Returns `(projected, h)` where `h` is the class-probability
matrix. -/
def forwardModel (exp : ℚ → ℚ) (Theta1 Theta2 thresholds : Mat) (X : Mat)
    (num_labels : ℕ) : Mat × Mat :=
  let m := X.length
  let a1 := X.map (fun row => 1 :: row)
  let z2 := mulT a1 Theta1
  let a2 := z2.map (fun row => row.map (sigmoid exp))
  let projected := mulT a2 Theta2
  let z3 := (List.range m).map (fun i =>
    (List.range (num_labels - 1)).map (fun j => entry thresholds 0 j - entry projected i 0))
  let a3T := z3.map (fun row => row.map (sigmoid exp))
  let a3 := a3T.map (fun row => row ++ [1])
  (projected, a3.map firstDiffRow)

/-- The L2 penalty of line 620: squared entries of `Theta1` without its bias
column (`Theta1[:,1:]`) plus squared entries of `Theta2`. -/
def regPenalty (Theta1 Theta2 : Mat) : ℚ :=
  (Theta1.map (fun row => (row.tail.map (fun w => w ^ 2)).sum)).sum +
    (Theta2.map (fun row => (row.map (fun w => w ^ 2)).sum)).sum

/-- The row-major (`np.where` order) selection `out[np.where(Y == 1)]` at
line 626: the entries of `out` at the positions where `Y` is 1. -/
def selectTrue (out Y : Mat) : List ℚ :=
  (List.zipWith (fun orow yrow =>
    (List.zipWith (fun o yv => if yv = (1 : ℚ) then [o] else []) orow yrow).flatten) out Y).flatten

/-- Python's scalar `math.log` applied to a numpy array, as at line 626:
converting the array to a Python float succeeds only when it has exactly one
element (`TypeError` otherwise), and `math.log` raises `ValueError` on a
non-positive argument.  The value of the logarithm itself is the explicit
parameter `log`. -/
def pyMathLog (log : ℚ → ℚ) : List ℚ → Except PyErr ℚ
  | [x] => if 0 < x then .ok (log x) else .error .valueError
  | _ => .error .typeError

/-- The outer `np.sum(·, axis=0)` at line 626 applied to the Python float
produced by `math.log`: numpy treats the scalar as a 0-d array, and a
reduction along `axis=0` of a 0-d array raises
`AxisError: axis 0 is out of bounds for array of dimension 0`. -/
def npSumScalarAxis0 (_x : ℚ) : Except PyErr ℚ :=
  .error .axisError

/-- The matrix `out` computed by `__nnPOMCostFunction` at lines 596–616:
unpack the parameters, derive the thresholds and run the forward pass. -/
def costOut (exp : ℚ → ℚ) (nn_params : List ℚ)
    (input_layer_size hidden_layer_size num_labels : ℕ) (X : Mat) : Mat :=
  let u := unpackParameters nn_params input_layer_size hidden_layer_size num_labels
  (forwardModel exp u.1 u.2.1 (convertThresholds u.2.2 num_labels) X num_labels).2

/-- The penalty `p` of line 620 as a function of the flat parameter vector. -/
def costPenalty (nn_params : List ℚ)
    (input_layer_size hidden_layer_size num_labels : ℕ) : ℚ :=
  let u := unpackParameters nn_params input_layer_size hidden_layer_size num_labels
  regPenalty u.1 u.2.1

/-- The cost expression `J` of line 626,
`np.sum(-math.log(out[np.where(Y==1)]), axis=0)/m + lambdaValue*p/(2*m)`,
with Python's evaluation order: `math.log` on the selected array first
(raising unless it has exactly one positive element), then the `axis=0`
reduction of the resulting Python scalar (which always raises `AxisError`). -/
def costJ (exp log : ℚ → ℚ) (nn_params : List ℚ)
    (input_layer_size hidden_layer_size num_labels : ℕ) (X Y : Mat)
    (lambdaValue : ℚ) : Except PyErr ℚ :=
  match pyMathLog log (selectTrue (costOut exp nn_params input_layer_size hidden_layer_size num_labels X) Y) with
  | .error e => .error e
  | .ok v =>
    match npSumScalarAxis0 (-v) with
    | .error e => .error e
    | .ok s =>
      .ok (s / (X.length : ℚ) +
        lambdaValue * costPenalty nn_params input_layer_size hidden_layer_size num_labels /
          (2 * (X.length : ℚ)))

/-- The mutable attributes of an `NNPOM` instance: the four hyperparameters
set in `__init__` and the five fitted attributes written by `fit`
(lines 160–164). -/
structure NNPOMState where
  epsilonInit : ℚ
  hiddenN : ℕ
  iterations : ℕ
  lambdaValue : ℚ
  theta1 : Mat
  theta2 : Mat
  thresholds : Mat
  num_labels : ℕ
  m : ℕ
deriving DecidableEq

/-- The private method `__nnPOMCostFunction` (lines 552–677).  The method
reads `self` only through the pure helpers and assigns no attribute, the
statement `grad = np.concatenate(...)` at line 673 rebinds a local name
without touching the array passed as the `grad` argument, and only the scalar
`J` is returned (line 677) — so the result carries the unchanged model state,
the unchanged gradient buffer and the `Except`-valued cost.  The gradient
block at lines 629–675 is unreachable: line 626 raises on every call (see
`costJ`), so it is not part of the executable semantics. -/
def nnPOMCostFunction (exp log : ℚ → ℚ) (self : NNPOMState) (nn_params grad : List ℚ)
    (input_layer_size hidden_layer_size num_labels : ℕ) (X Y : Mat)
    (lambdaValue : ℚ) : NNPOMState × List ℚ × Except PyErr ℚ :=
  (self, grad, costJ exp log nn_params input_layer_size hidden_layer_size num_labels X Y lambdaValue)

/-- The public method `predict` (lines 171–208).  Its first statement,
`m = test.shape(0)` at line 195, calls the tuple `test.shape` as if it were a
function, so every call raises `TypeError: tuple object is not callable`
before any computation happens. -/
def predict (_self : NNPOMState) (_test : Mat) : Except PyErr (Mat × List ℕ) :=
  .error .typeError

/-- Index of the first maximal element, the semantics of `np.argmax` on a
vector (ties broken by the lowest index). -/
def argmaxList (xs : List ℚ) : ℕ :=
  xs.indexOf (xs.foldl max (xs.headD 0))

/-- Lines 197–208 of `predict`, which the raise at line 195 makes unreachable,
reconstructed with the row count of `test` in place of `m`: forward pass with
the fitted parameters, then line 206 `a3.argmax(0)[:,np.newaxis]` — an argmax
along axis 0, producing for each of the `num_labels` columns the first row
index holding the column's maximum. -/
def predictRest (exp : ℚ → ℚ) (self : NNPOMState) (test : Mat) : Mat × List ℕ :=
  let fw := forwardModel exp self.theta1 self.theta2 self.thresholds test self.num_labels
  let predicted := (List.range self.num_labels).map (fun j =>
    argmaxList (fw.2.map (fun row => row.getD j 0)))
  (fw.1, predicted)

/-- The one-hot recoding of `y` at line 115 of `fit`:
`Y[i][j] = 1` iff `y[i] = j+1`, for `j < num_labels`. -/
def oneHot (y : List ℚ) (num_labels : ℕ) : Mat :=
  y.map (fun yi => (List.range num_labels).map (fun j =>
    if yi = ((j : ℚ) + 1) then (1 : ℚ) else 0))

/-- The initial flat parameter vector built by `fit` at lines 119–129:
`__randInitializeWeights` for the three tensors, packed column-major. -/
def initialParams (self : NNPOMState) (input_layer_size num_labels : ℕ) : List ℚ :=
  packParameters
    (randInitializeWeights (input_layer_size + 1) self.hiddenN)
    (randInitializeWeights self.hiddenN 1)
    (randInitializeWeights (num_labels - 1) 1)

/-- The objective handed to the optimizer at line 132: the cost part of
`__nnPOMCostFunction` as a function of the flat parameter vector (the
gradient buffer supplied by the optimizer is never written, see
`nnPOMCostFunction`). -/
def fitObjective (exp log : ℚ → ℚ) (self : NNPOMState)
    (input_layer_size num_labels : ℕ) (X Y : Mat) : List ℚ → Except PyErr ℚ :=
  fun params =>
    (nnPOMCostFunction exp log self params [] input_layer_size self.hiddenN num_labels X Y
      self.lambdaValue).2.2

/-- Modelled from the spec: the external optimizer `fmin_lbfgs` (imported
from the third-party `lbfgs` package, not part of this repository) is per
spec §6 a black-box minimizer taking an objective, an initial vector and an
iteration budget, returning a parameter vector.  It evaluates the objective
at the initial point and then iterates; an exception raised by the objective
propagates to the caller.  The vector returned by a successful run is
abstracted as the `oracle` argument. -/
def fminLbfgs (f : List ℚ → Except PyErr ℚ) (x0 : List ℚ) (oracle : List ℚ) :
    Except PyErr (List ℚ) :=
  match f x0 with
  | .error e => .error e
  | .ok _ => .ok oracle

/-- The fitted state written by `fit` at lines 157–164: unpack the optimizer
result and store `theta1`, `theta2`, the derived `thresholds`, `num_labels`
and `m`, leaving the hyperparameters as they were. -/
def fittedState (self : NNPOMState) (nn_params : List ℚ)
    (input_layer_size num_labels m : ℕ) : NNPOMState :=
  { self with
    theta1 := (unpackParameters nn_params input_layer_size self.hiddenN num_labels).1
    theta2 := (unpackParameters nn_params input_layer_size self.hiddenN num_labels).2.1
    thresholds :=
      convertThresholds (unpackParameters nn_params input_layer_size self.hiddenN num_labels).2.2
        num_labels
    num_labels := num_labels
    m := m }

/-- The public method `fit` (lines 79–168): recode `y` one-hot, initialize
and pack the parameters, run the external optimizer on the cost callback
(line 132), on success store the fitted state (lines 157–164) and finish by
calling `predict` on the training data (line 166).  An exception anywhere
leaves the returned state as far as execution got: an optimizer failure
leaves the original state, a `predict` failure leaves the freshly written
fitted state. -/
def fit (exp log : ℚ → ℚ) (oracle : List ℚ) (self : NNPOMState) (X : Mat) (y : List ℚ) :
    NNPOMState × Except PyErr (Mat × List ℕ) :=
  match fminLbfgs
      (fitObjective exp log self (numCols X) y.dedup.length X (oneHot y y.dedup.length))
      (initialParams self (numCols X) y.dedup.length) oracle with
  | .error e => (self, .error e)
  | .ok nn_params =>
    match predict (fittedState self nn_params (numCols X) y.dedup.length X.length) X with
    | .error e => (fittedState self nn_params (numCols X) y.dedup.length X.length, .error e)
    | .ok r => (fittedState self nn_params (numCols X) y.dedup.length X.length, .ok r)

/-- The §4.1 threshold formula, stated from the spec's words for comparison
with `convertThresholds`: `thresholds[j] = t[0] + Σ_{i=1..j} t[i]^2`,
for `j = 0 .. K-2`, reading `t` as a `(K-1) × 1` column. -/
def thresholdsSpec (t : Mat) (num_labels : ℕ) : List ℚ :=
  (List.range (num_labels - 1)).map (fun j =>
    entry t 0 0 + ((List.range j).map (fun i => (entry t (i + 1) 0) ^ 2)).sum)

theorem masked_sum (v : ℕ → ℚ) (n i : ℕ) (h : i < n) :
    ((List.range n).map (fun j => (if j ≤ i then (1 : ℚ) else 0) * v j)).sum
      = ((List.range (i + 1)).map v).sum := by
  induction n with
  | zero => exact absurd h (Nat.not_lt_zero i)
  | succ n ih =>
    rw [List.range_succ, List.map_append, List.sum_append]
    rcases Nat.lt_or_ge i n with hin | hin
    · rw [ih hin]
      have : ¬ n ≤ i := Nat.not_le_of_lt hin
      simp [this]
    · have hi : i = n := Nat.le_antisymm (Nat.lt_succ_iff.mp h) hin
      subst hi
      have hmap : (List.range i).map (fun j => (if j ≤ i then (1 : ℚ) else 0) * v j)
          = (List.range i).map v := by
        apply List.map_congr_left
        intro a ha
        have : a ≤ i := Nat.le_of_lt (List.mem_range.mp ha)
        simp [this]
      rw [hmap, List.range_succ, List.map_append, List.sum_append]
      simp

theorem range_succ_sum_peel (v : ℕ → ℚ) (i : ℕ) :
    ((List.range (i + 1)).map v).sum
      = v 0 + ((List.range i).map (fun j => v (j + 1))).sum := by
  rw [List.range_succ_eq_map]
  simp [List.map_map, Function.comp_def]

/-- C7: for every class count `K ≥ 2` and raw column `t` of length `K-1`, the
threshold transform `__convertThresholds` returns a single row of length
`K-1` with `thresholds[0] = t[0]` and
`thresholds[j] = t[0] + Σ_{i=1..j} t[i]^2`; for `K = 2` this is the single
threshold `t[0]`. -/
theorem convertThresholds_matches_spec (K : ℕ) (t : Mat)
    (_hK : 2 ≤ K) (_ht : t.length = K - 1) :
    convertThresholds t K = [thresholdsSpec t K] ∧
      (thresholdsSpec t K).length = K - 1 := by
  constructor
  · unfold convertThresholds thresholdsSpec
    dsimp only
    congr 1
    apply List.map_congr_left
    intro i hi
    rw [masked_sum _ _ _ (List.mem_range.mp hi), range_succ_sum_peel]
    simp
  · simp [thresholdsSpec]

theorem convertThresholds_matches_spec_witness :
    (2 ≤ 3 ∧ ([[(2 : ℚ)], [3]] : Mat).length = 3 - 1) ∧
      (convertThresholds [[(2 : ℚ)], [3]] 3 = [thresholdsSpec [[(2 : ℚ)], [3]] 3] ∧
        (thresholdsSpec [[(2 : ℚ)], [3]] 3).length = 3 - 1) :=
  ⟨⟨by decide, by decide⟩,
    convertThresholds_matches_spec 3 [[(2 : ℚ)], [3]] (by decide) (by decide)⟩

theorem firstDiffRow_sum_telescopes (x : ℚ) (r : List ℚ) :
    (firstDiffRow (x :: (r ++ [1]))).sum = 1 := by
  induction r generalizing x with
  | nil => simp [firstDiffRow]
  | cons y r ih =>
    have h := ih y
    simp only [firstDiffRow, List.cons_append, List.tail_cons, List.zipWith_cons_cons,
      List.sum_cons, List.headD_cons] at h ⊢
    linarith

theorem firstDiffRow_append_one_sum (row : List ℚ) :
    (firstDiffRow (row ++ [1])).sum = 1 := by
  cases row with
  | nil => simp [firstDiffRow]
  | cons x r => exact firstDiffRow_sum_telescopes x r

/-- C8: for any parameters, thresholds and input matrix, every row of the
class-probability matrix produced by the forward pass (first-differencing of
the cumulative sigmoid matrix with an appended column of ones) sums to
exactly 1 — the telescoping sum, in exact arithmetic, for any value of the
sigmoid entries. -/
theorem forward_rows_sum_one (exp : ℚ → ℚ) (Theta1 Theta2 thresholds X : Mat)
    (num_labels : ℕ) (r : List ℚ)
    (hr : r ∈ (forwardModel exp Theta1 Theta2 thresholds X num_labels).2) :
    r.sum = 1 := by
  simp only [forwardModel] at hr
  obtain ⟨row, hrow, rfl⟩ := List.mem_map.1 hr
  obtain ⟨rowT, -, rfl⟩ := List.mem_map.1 hrow
  exact firstDiffRow_append_one_sum rowT

theorem forward_rows_sum_one_witness :
    ([(1 : ℚ)/2, 1/2] ∈ (forwardModel (fun _ => 1) [[0, 0]] [[1]] [[0]] [[0]] 2).2) ∧
      ([(1 : ℚ)/2, 1/2]).sum = 1 :=
  ⟨by with_unfolding_all decide,
    forward_rows_sum_one (fun _ => 1) [[0, 0]] [[1]] [[0]] [[0]] 2 [(1 : ℚ)/2, 1/2]
      (by with_unfolding_all decide)⟩

/-- C2: `fit` packs the three tensors column-major (lines 127–129) but
`__unpackParameters` reshapes with numpy's default row-major order
(lines 470–481), so packing `W1 = [[1,2],[3,4]]` (hidden width 2, input
dimensionality 1, 2 classes) and immediately unpacking returns `Theta1`
scrambled to `[[1,3],[2,4]]`, not the original — the round trip is not the
identity. -/
theorem packUnpack_not_roundtrip :
    unpackParameters (packParameters [[1, 2], [3, 4]] [[5, 6]] [[7]]) 1 2 2 =
        ([[1, 3], [2, 4]], [[5, 6]], [[7]]) ∧
      unpackParameters (packParameters [[1, 2], [3, 4]] [[5, 6]] [[7]]) 1 2 2 ≠
        ([[1, 2], [3, 4]], [[5, 6]], [[7]]) := by
  refine ⟨by decide, ?_⟩
  intro h
  have := congrArg (fun p => entry p.1 0 1) h
  revert this
  decide

/-- C6: `__randInitializeWeights` (lines 507–510) returns `np.ones`, the
random draw being commented out, so every initial weight entry is exactly 1,
which is outside the configured default range
`[-epsilonInit, epsilonInit] = [-1/2, 1/2]`. -/
theorem randInitializeWeights_ones_outside_range :
    randInitializeWeights 3 2 = [[1, 1, 1], [1, 1, 1]] ∧
      ¬ (-defaultEpsilonInit ≤ (1 : ℚ) ∧ (1 : ℚ) ≤ defaultEpsilonInit) := by
  with_unfolding_all decide

/-- C10: `__nnPOMCostFunction` leaves the model object unchanged (it assigns
no fitted attribute) and never writes into the `grad` array passed as its
second argument — line 673 rebinds a local name — and its result carries only
the scalar cost. -/
theorem nnPOMCostFunction_frame (exp log : ℚ → ℚ) (self : NNPOMState)
    (nn_params grad : List ℚ) (input_layer_size hidden_layer_size num_labels : ℕ)
    (X Y : Mat) (lambdaValue : ℚ) :
    (nnPOMCostFunction exp log self nn_params grad input_layer_size hidden_layer_size
        num_labels X Y lambdaValue).1 = self ∧
      (nnPOMCostFunction exp log self nn_params grad input_layer_size hidden_layer_size
        num_labels X Y lambdaValue).2.1 = grad :=
  ⟨rfl, rfl⟩

/-- C3: on a two-sample training set the cost routine raises `TypeError`
instead of returning the cross-entropy cost: line 626 applies the scalar
`math.log` to the length-2 array `out[np.where(Y==1)]`, and only size-1
numpy arrays convert to a Python float.  Concrete run: zero parameters,
`D = H = 1`, `K = 2`, `X = [[1],[2]]`, one-hot `Y = [[1,0],[0,1]]`,
`lambda = 0`. -/
theorem costFunction_typeError_on_two_samples :
    (nnPOMCostFunction (fun _ => 1) (fun _ => 0) ⟨1/2, 1, 500, 1/100, [], [], [], 0, 0⟩
        [0, 0, 0, 0] [] 1 1 2 [[1], [2]] [[1, 0], [0, 1]] 0).2.2
      = Except.error PyErr.typeError := by
  with_unfolding_all decide

/-- C4: the epsilon floor on the true-class probabilities is commented out
(line 632), so a zero probability reaches `math.log`, which raises
`ValueError: math domain error` — the error propagates to the caller instead
of the cost being made finite.  Concrete run: one sample with true class 2 of
`K = 3`, raw thresholds `t = [0, 0]` (equal derived thresholds), so
`P[0, 2] = sigmoid(th1 - proj) - sigmoid(th0 - proj) = 0` exactly. -/
theorem costFunction_valueError_on_zero_probability :
    (nnPOMCostFunction (fun _ => 1) (fun _ => 0) ⟨1/2, 1, 500, 1/100, [], [], [], 0, 0⟩
        [0, 0, 0, 0, 0] [] 1 1 3 [[0]] [[0, 1, 0]] 0).2.2
      = Except.error PyErr.valueError := by
  with_unfolding_all decide

/-- C5: the cost routine outputs no gradient vector: the flat gradient of
line 673 is bound to a local name (whose tail, line 674, even holds
`thresholds_param` instead of `Threshold_grad`), the passed-in buffer is
returned untouched, and only the scalar cost position is used — which on this
concrete run (two samples, `D = H = 1`, `K = 2`, zero parameters,
`lambda = 1`) is itself the `TypeError` of line 626, raised before the
gradient block is ever reached. -/
theorem costFunction_outputs_no_gradient :
    (nnPOMCostFunction (fun _ => 1) (fun _ => 0) ⟨1/2, 1, 500, 1/100, [], [], [], 0, 0⟩
        [0, 0, 0, 0] [9, 9, 9, 9] 1 1 2 [[0], [0]] [[1, 0], [1, 0]] 1).2
      = ([9, 9, 9, 9], Except.error PyErr.typeError) := by
  with_unfolding_all decide

/-- C1: `predict` never returns the claimed vectors.  Its first statement
`m = test.shape(0)` (line 195) calls the tuple `test.shape`, raising
`TypeError` on every call; and the remaining lines, reconstructed in
`predictRest`, take `a3.argmax(0)` (line 206) — an argmax along the rows —
so on a fitted 3-class model and a 2-row test matrix the prediction vector
has length `num_labels = 3` (row indices per class column), not length
`m = 2` with entries `argmax_j P[i,j]` in `1..3`. -/
theorem predict_raises_and_argmax_wrong_axis :
    predict ⟨1/2, 1, 500, 1/100, [[0, 0]], [[1]], [[0, 1]], 3, 5⟩ [[0], [1]]
        = Except.error PyErr.typeError ∧
      ((predictRest (fun _ => 1) ⟨1/2, 1, 500, 1/100, [[0, 0]], [[1]], [[0, 1]], 3, 5⟩
          [[0], [1]]).2).length = 3 := by
  refine ⟨rfl, ?_⟩
  with_unfolding_all decide

theorem costJ_isError (exp log : ℚ → ℚ) (nn_params : List ℚ)
    (input_layer_size hidden_layer_size num_labels : ℕ) (X Y : Mat)
    (lambdaValue : ℚ) :
    ∃ e, costJ exp log nn_params input_layer_size hidden_layer_size num_labels X Y lambdaValue
      = Except.error e := by
  unfold costJ
  split
  · exact ⟨_, rfl⟩
  · exact ⟨PyErr.axisError, rfl⟩

theorem fminLbfgs_propagates (f : List ℚ → Except PyErr ℚ) (x0 oracle : List ℚ)
    (e : PyErr) (h : f x0 = Except.error e) :
    fminLbfgs f x0 oracle = Except.error e := by
  unfold fminLbfgs
  rw [h]

/-- C9: a `fit` call that fails leaves the previously fitted state exactly as
it was.  In this code every `fit` call fails before any attribute write: the
cost callback raises on its very first evaluation (line 626, see
`costJ_isError`), the optimizer propagates the exception, and the attribute
writes of lines 160–164 are never reached — so the model state is returned
unchanged, never a mixture. -/
theorem fit_failure_preserves_state (exp log : ℚ → ℚ) (oracle : List ℚ)
    (self : NNPOMState) (X : Mat) (y : List ℚ) :
    ∃ e, fit exp log oracle self X y = (self, Except.error e) := by
  obtain ⟨e, he⟩ := costJ_isError exp log
    (initialParams self (numCols X) y.dedup.length)
    (numCols X) self.hiddenN y.dedup.length X (oneHot y y.dedup.length) self.lambdaValue
  refine ⟨e, ?_⟩
  have hobj : fitObjective exp log self (numCols X) y.dedup.length X (oneHot y y.dedup.length)
      (initialParams self (numCols X) y.dedup.length) = Except.error e := he
  unfold fit
  rw [fminLbfgs_propagates _ _ _ _ hobj]
